/-
Verification of the Abdullah Housing backend (src/main.py, src/schemas.py)
against its natural-language specification.

Shallow embedding conventions:
* Python strings are Lean `String`; `str.encode("utf-8")` is `utf8Encode`
  (bytes as `Nat` values < 256).
* `hashlib.sha256(...).hexdigest()` is embedded as the actual SHA-256
  algorithm (FIPS 180-4) over `Nat` arithmetic with explicit `% 2^32`,
  rendered as 64 lowercase hex characters.
* The document store adapter (`database.py`, imported by `main.py` but not
  part of the sources under verification) is modelled from the spec:
  collections are Lean lists, `find_one` is `List.find?` (first match),
  `create_document` appends a record carrying a store-assigned fresh id
  and returns that id, `get_documents` filters by exact equality and
  truncates to `limit`.
* `raise HTTPException(...)` is an error constructor of a result type;
  handlers are pure functions of an explicit store state.
-/
import Mathlib

set_option linter.unusedVariables false

namespace AbdullahHousing

/-! ### SHA-256 (embedding of `hashlib.sha256`, used by `sha256_hash` in src/main.py) -/

/-- The word modulus `2^32` of SHA-256. -/
def w32 : Nat := 4294967296

/-- Addition modulo `2^32`. -/
def add32 (a b : Nat) : Nat := (a + b) % w32

/-- Rotate a 32-bit word right by `n` bit positions. -/
def rotr (n x : Nat) : Nat := ((x >>> n) ||| (x <<< (32 - n))) % w32

/-- The choice function of SHA-256 (complement taken by xor against the
all-ones word). -/
def ch (x y z : Nat) : Nat := (x &&& y) ^^^ ((x ^^^ 4294967295) &&& z)

/-- The majority function of SHA-256. -/
def maj (x y z : Nat) : Nat := (x &&& y) ^^^ (x &&& z) ^^^ (y &&& z)

/-- SHA-256 big sigma 0. -/
def bigSigma0 (x : Nat) : Nat := (rotr 2 x) ^^^ (rotr 13 x) ^^^ (rotr 22 x)

/-- SHA-256 big sigma 1. -/
def bigSigma1 (x : Nat) : Nat := (rotr 6 x) ^^^ (rotr 11 x) ^^^ (rotr 25 x)

/-- SHA-256 small sigma 0. -/
def smallSigma0 (x : Nat) : Nat := (rotr 7 x) ^^^ (rotr 18 x) ^^^ (x >>> 3)

/-- SHA-256 small sigma 1. -/
def smallSigma1 (x : Nat) : Nat := (rotr 17 x) ^^^ (rotr 19 x) ^^^ (x >>> 10)

/-- The 64 SHA-256 round constants (FIPS 180-4 section 4.2.2, written in
decimal). -/
def K256 : List Nat :=
  [1116352408, 1899447441, 3049323471, 3921009573,
   961987163, 1508970993, 2453635748, 2870763221,
   3624381080, 310598401, 607225278, 1426881987,
   1925078388, 2162078206, 2614888103, 3248222580,
   3835390401, 4022224774, 264347078, 604807628,
   770255983, 1249150122, 1555081692, 1996064986,
   2554220882, 2821834349, 2952996808, 3210313671,
   3336571891, 3584528711, 113926993, 338241895,
   666307205, 773529912, 1294757372, 1396182291,
   1695183700, 1986661051, 2177026350, 2456956037,
   2730485921, 2820302411, 3259730800, 3345764771,
   3516065817, 3600352804, 4094571909, 275423344,
   430227734, 506948616, 659060556, 883997877,
   958139571, 1322822218, 1537002063, 1747873779,
   1955562222, 2024104815, 2227730452, 2361852424,
   2428436474, 2756734187, 3204031479, 3329325298]

/-- The eight 32-bit words of a SHA-256 hash state. -/
@[ext] structure H8 where
  h0 : Nat
  h1 : Nat
  h2 : Nat
  h3 : Nat
  h4 : Nat
  h5 : Nat
  h6 : Nat
  h7 : Nat
deriving Repr, DecidableEq

/-- The SHA-256 initial hash state (FIPS 180-4 section 5.3.3, written in
decimal). -/
def initH : H8 :=
  ⟨1779033703, 3144134277, 1013904242, 2773480762,
   1359893119, 2600822924, 528734635, 1541459225⟩

/-- Merkle–Damgård padding of a byte message: append `0x80`, zero bytes up
to 56 mod 64, then the bit length as 8 big-endian bytes. -/
def padMessage (msg : List Nat) : List Nat :=
  let len := msg.length
  let zeros := (64 - ((len + 9) % 64)) % 64
  msg ++ [0x80] ++ List.replicate zeros 0 ++
    (List.range 8).map (fun i => ((len * 8) >>> (8 * (7 - i))) % 256)

/-- Split a byte list into 64-byte chunks (fuel-indexed; the fuel
`l.length` always suffices since each step consumes at least one byte). -/
def chunksAux : Nat → List Nat → List (List Nat)
  | 0, _ => []
  | _, [] => []
  | fuel + 1, l => l.take 64 :: chunksAux fuel (l.drop 64)

/-- Split a byte list into 64-byte chunks. -/
def chunks64 (l : List Nat) : List (List Nat) := chunksAux l.length l

/-- The 16 big-endian 32-bit words of a 64-byte block. -/
def blockWords (block : List Nat) : List Nat :=
  (List.range 16).map (fun i =>
    block.getD (4 * i) 0 * 16777216 + block.getD (4 * i + 1) 0 * 65536 +
      block.getD (4 * i + 2) 0 * 256 + block.getD (4 * i + 3) 0)

/-- One message-schedule extension step: append
`σ1(w[n-2]) + w[n-7] + σ0(w[n-15]) + w[n-16] (mod 2^32)`. -/
def scheduleStep (ws : List Nat) : List Nat :=
  let n := ws.length
  ws ++ [add32 (add32 (smallSigma1 (ws.getD (n - 2) 0)) (ws.getD (n - 7) 0))
               (add32 (smallSigma0 (ws.getD (n - 15) 0)) (ws.getD (n - 16) 0))]

/-- Extend the 16 block words to the 64-entry message schedule. -/
def buildSchedule (ws : List Nat) : List Nat := scheduleStep^[48] ws

/-- One SHA-256 compression round on working variables `(a..h) = (h0..h7)`. -/
def compressStep (v : H8) (k : Nat) (w : Nat) : H8 :=
  let s1 := bigSigma1 v.h4
  let chv := ch v.h4 v.h5 v.h6
  let temp1 := add32 (add32 (add32 v.h7 s1) (add32 chv k)) w
  let s0 := bigSigma0 v.h0
  let majv := maj v.h0 v.h1 v.h2
  let temp2 := add32 s0 majv
  ⟨add32 temp1 temp2, v.h0, v.h1, v.h2, add32 v.h3 temp1, v.h4, v.h5, v.h6⟩

/-- SHA-256 compression of one 64-byte block into the hash state. -/
def compress (hs : H8) (block : List Nat) : H8 :=
  let ws := buildSchedule (blockWords block)
  let v := (K256.zip ws).foldl (fun acc kw => compressStep acc kw.1 kw.2) hs
  ⟨add32 hs.h0 v.h0, add32 hs.h1 v.h1, add32 hs.h2 v.h2, add32 hs.h3 v.h3,
   add32 hs.h4 v.h4, add32 hs.h5 v.h5, add32 hs.h6 v.h6, add32 hs.h7 v.h7⟩

/-- SHA-256 digest (eight 32-bit words) of a byte message. -/
def sha256Digest (msg : List Nat) : H8 :=
  (chunks64 (padMessage msg)).foldl compress initH

/-- Lowercase hexadecimal digit for a nibble. -/
def hexDigit (n : Nat) : Char :=
  if n < 10 then Char.ofNat (48 + n) else Char.ofNat (87 + n)

/-- Eight lowercase hex characters of a 32-bit word, most significant first. -/
def wordHex (w : Nat) : List Char :=
  (List.range 8).map (fun i => hexDigit ((w >>> ((7 - i) * 4)) % 16))

/-- The `hexdigest()` rendering of a digest: 64 lowercase hex characters. -/
def digestHex (d : H8) : String :=
  ⟨wordHex d.h0 ++ wordHex d.h1 ++ wordHex d.h2 ++ wordHex d.h3 ++
   wordHex d.h4 ++ wordHex d.h5 ++ wordHex d.h6 ++ wordHex d.h7⟩

/-- UTF-8 encoding of one Unicode scalar value. -/
def utf8Bytes (c : Nat) : List Nat :=
  if c < 128 then [c]
  else if c < 2048 then [192 + c / 64, 128 + c % 64]
  else if c < 65536 then [224 + c / 4096, 128 + (c / 64) % 64, 128 + c % 64]
  else [240 + c / 262144, 128 + (c / 4096) % 64, 128 + (c / 64) % 64, 128 + c % 64]

/-- UTF-8 encoding of a string (`text.encode("utf-8")`). -/
def utf8Encode (s : String) : List Nat :=
  (s.data.map (fun ch => utf8Bytes ch.toNat)).flatten

/-- Embedding of `sha256_hash` from src/main.py lines 50-51:
`hashlib.sha256(text.encode("utf-8")).hexdigest()`. -/
def sha256_hash (text : String) : String :=
  digestHex (sha256Digest (utf8Encode text))

/-! ### Auth service (src/main.py lines 87-112)

The `user` collection document shape is fixed by `register_user`
(src/main.py lines 92-97) and src/schemas.py's `User` model. Ids are the
store-assigned identifiers; `register_user` receives the id that
`create_document` returns as a string and `login_user` renders the stored
id with `str(...)`, so ids are modelled as the strings those calls see. -/

/-- A document of the `user` collection. -/
structure UserDoc where
  _id : String
  name : String
  email : String
  password_hash : String
  is_active : Bool
deriving Repr, DecidableEq

/-- The `user` collection state. -/
structure Store where
  users : List UserDoc
deriving Repr, DecidableEq

/-- The public user projection `{_id, name, email}` returned by both auth
endpoints (src/main.py lines 100 and 111). -/
structure UserPublic where
  _id : String
  name : String
  email : String
deriving Repr, DecidableEq

/-- Outcome of an auth endpoint: a successful `AuthResponse` or a raised
`HTTPException(status_code, detail)`. -/
inductive AuthResult where
  | ok (message : String) (token : String) (user : UserPublic)
  | httpError (status : Nat) (detail : String)
deriving Repr, DecidableEq

/-- Modelled from the spec: `find_one({"email": e})` of the document store
adapter (`database.py`, absent from src/) returns the first record whose
`email` equals `e` exactly, or nothing (§4.2 exact-equality filter,
store-default order). -/
def findByEmail (users : List UserDoc) (email : String) : Option UserDoc :=
  users.find? (fun u => u.email == email)

/-- Embedding of `register_user` from src/main.py lines 87-101, with `db` present.
Modelled from the spec: `create_document("user", doc)` (from the absent
`database.py`) appends the document with a store-assigned fresh unique id
and returns that id as a string (§4.2); the assigned id is the `newId`
argument. Returns the endpoint result together with the resulting store
state. -/
def register_user (newId : String) (st : Store) (name email password : String) :
    AuthResult × Store :=
  match findByEmail st.users email with
  | some _ => (.httpError 400 "Email already registered", st)
  | none =>
      let user_doc : UserDoc :=
        { _id := newId, name := name, email := email,
          password_hash := sha256_hash password, is_active := true }
      let token := sha256_hash (email ++ "|" ++ newId)
      let user_public : UserPublic := { _id := newId, name := name, email := email }
      (.ok "Registered successfully" token user_public, { users := st.users ++ [user_doc] })

/-- Embedding of `login_user` from src/main.py lines 103-112, with `db` present. -/
def login_user (st : Store) (email password : String) : AuthResult :=
  match findByEmail st.users email with
  | none => .httpError 401 "Invalid credentials"
  | some user =>
      if user.password_hash ≠ sha256_hash password then
        .httpError 401 "Invalid credentials"
      else
        .ok "Login successful" (sha256_hash (email ++ "|" ++ user._id))
          { _id := user._id, name := user.name, email := user.email }

/-! ### Content service (src/main.py lines 35-46 and 126-145)

Store-native ids of `project` and `plot` documents (Mongo ObjectIds) are
modelled as `Nat`; the listing endpoints render them with `str(...)`,
modelled as `toString`. -/

/-- Boundary (pydantic) validation failures. -/
inductive ValErr where
  | priceLtZero
deriving Repr, DecidableEq

/-- A `ProjectIn` request body after type parsing but before
constraint/default handling: optional fields may be absent. -/
structure ProjectRaw where
  title : String
  description : Option String
  status : Option String
  cover_image : Option String
deriving Repr, DecidableEq

/-- The validated `ProjectIn` model (src/main.py lines 35-39). -/
structure ProjectIn where
  title : String
  description : Option String
  status : String
  cover_image : Option String
deriving Repr, DecidableEq

/-- Boundary validation for `ProjectIn` (src/main.py lines 35-39): pydantic
checks only the field types; the `status` `Field` carries a default
`"upcoming"` and a `description` string (documentation only — no value
constraint is generated), so every typed request passes. -/
def validateProjectIn (p : ProjectRaw) : Except ValErr ProjectIn :=
  .ok { title := p.title, description := p.description,
        status := p.status.getD "upcoming", cover_image := p.cover_image }

/-- A `PlotIn` request body after type parsing but before
constraint/default handling. Prices are `float` in source; the properties
at issue are order comparisons with zero, modelled over `ℚ`. -/
structure PlotRaw where
  plot_no : String
  size : String
  sector : Option String
  price : Option ℚ
  status : Option String
deriving Repr, DecidableEq

/-- The validated `PlotIn` model (src/main.py lines 41-46). -/
structure PlotIn where
  plot_no : String
  size : String
  sector : Option String
  price : Option ℚ
  status : String
deriving Repr, DecidableEq

/-- Boundary validation for `PlotIn` (src/main.py lines 41-46): pydantic
enforces `ge=0` on `price` when a value is given; the `status` `Field`
carries only a default `"available"` and a `description` string, so no
status value check is generated. -/
def validatePlotIn (p : PlotRaw) : Except ValErr PlotIn :=
  match p.price with
  | some pr =>
      if pr < 0 then .error .priceLtZero
      else .ok { plot_no := p.plot_no, size := p.size, sector := p.sector,
                 price := some pr, status := p.status.getD "available" }
  | none => .ok { plot_no := p.plot_no, size := p.size, sector := p.sector,
                  price := none, status := p.status.getD "available" }

/-- A persisted `project` document. -/
structure ProjectDoc where
  _id : Nat
  title : String
  description : Option String
  status : String
  cover_image : Option String
deriving Repr, DecidableEq

/-- A persisted `plot` document. -/
structure PlotDoc where
  _id : Nat
  plot_no : String
  size : String
  sector : Option String
  price : Option ℚ
  status : String
deriving Repr, DecidableEq

/-- The `project` and `plot` collections. -/
structure ContentStore where
  projects : List ProjectDoc
  plots : List PlotDoc
deriving Repr, DecidableEq

/-- Embedding of `create_project` from src/main.py lines 126-129. Modelled from the
spec: `create_document` (absent `database.py`) appends the record under the
store-assigned fresh id `newId` and returns the id as a string (§4.2). -/
def create_project (newId : Nat) (st : ContentStore) (item : ProjectIn) :
    (String × String) × ContentStore :=
  ((toString newId, "Project created"),
   { st with projects := st.projects ++
      [{ _id := newId, title := item.title, description := item.description,
         status := item.status, cover_image := item.cover_image }] })

/-- Embedding of `create_plot` from src/main.py lines 142-145. Modelled from the spec:
`create_document` (absent `database.py`) appends the record under the
store-assigned fresh id `newId` and returns the id as a string (§4.2). -/
def create_plot (newId : Nat) (st : ContentStore) (item : PlotIn) :
    (String × String) × ContentStore :=
  ((toString newId, "Plot created"),
   { st with plots := st.plots ++
      [{ _id := newId, plot_no := item.plot_no, size := item.size,
         sector := item.sector, price := item.price, status := item.status }] })

/-- The POST `/api/projects` pipeline: boundary validation then the
handler. A validation failure is rejected before the handler runs, so the
store is returned unchanged. -/
def post_project (newId : Nat) (st : ContentStore) (raw : ProjectRaw) :
    Except ValErr (String × String) × ContentStore :=
  match validateProjectIn raw with
  | .error e => (.error e, st)
  | .ok item =>
      let r := create_project newId st item
      (.ok r.1, r.2)

/-- The POST `/api/plots` pipeline: boundary validation then the handler.
A validation failure is rejected before the handler runs, so the store is
returned unchanged. -/
def post_plot (newId : Nat) (st : ContentStore) (raw : PlotRaw) :
    Except ValErr (String × String) × ContentStore :=
  match validatePlotIn raw with
  | .error e => (.error e, st)
  | .ok item =>
      let r := create_plot newId st item
      (.ok r.1, r.2)

/-- Modelled from the spec: `get_documents("plot", filt, limit)` of the
document store adapter (`database.py`, absent from src/) returns up to
`limit` records matching the equality filter — here either empty (`none`)
or `{"status": s}` (`some s`) — in store order (§4.2). -/
def get_documents (docs : List PlotDoc) (filt : Option String) (limit : Nat) :
    List PlotDoc :=
  (docs.filter (fun d =>
    match filt with
    | some s => d.status == s
    | none => true)).take limit

/-- A plot record as returned by GET `/api/plots`: the store-native id has
been rendered as a plain string. -/
structure PlotOut where
  _id : String
  plot_no : String
  size : String
  sector : Option String
  price : Option ℚ
  status : String
deriving Repr, DecidableEq

/-- The `norm` helper of `list_plots` (src/main.py lines 135-139):
`d["_id"] = str(d["_id"])`. Stored ids are always present and truthy
(ObjectIds), so the conversion always applies. -/
def normPlot (d : PlotDoc) : PlotOut :=
  { _id := toString d._id, plot_no := d.plot_no, size := d.size,
    sector := d.sector, price := d.price, status := d.status }

/-- Embedding of `list_plots` from src/main.py lines 131-140. The filter is
`{"status": status} if status else {}`: a Python truthiness test, false
for both `None` and the empty string. -/
def list_plots (st : ContentStore) (limit : Nat) (status : Option String) :
    List PlotOut :=
  let filt : Option String :=
    match status with
    | some s => if s = "" then none else some s
    | none => none
  (get_documents st.plots filt limit).map normPlot

/-- The `list_plots` endpoint with the default query parameter `limit = 50`
(src/main.py line 132). -/
def list_plots_default (st : ContentStore) (status : Option String) : List PlotOut :=
  list_plots st 50 status

/-! ### Diagnostic endpoint (src/main.py lines 58-84) -/

/-- State of the module-level `db` handle and its collection listing:
`db` may be `None`, or present with `list_collection_names()` either
raising an exception (carrying `str(e)`) or returning names. -/
inductive DBConn where
  | noDb
  | withDb (listResult : Except String (List String))
deriving Repr

/-- The environment variables read by `/test`. -/
structure Env where
  database_url : Option String
  database_name : Option String
deriving Repr, DecidableEq

/-- Python truthiness of `os.getenv(...)`: false for an unset variable and
for the empty string. -/
def envTruthy : Option String → Bool
  | some s => !(s == "")
  | none => false

/-- The `/test` response object (src/main.py lines 60-67). -/
structure TestResponse where
  backend : String
  database : String
  database_url : Option String
  database_name : Option String
  connection_status : String
  collections : List String
deriving Repr, DecidableEq

/-- Embedding of `test_database` from src/main.py lines 58-84. The inner `try` guards
`db.list_collection_names()`; on an exception the `collections`,
`database` and `connection_status` updates of the success path are skipped
and `database` reports the error prose. The outer `try` guards code that
cannot raise in this model (`db is not None` and `os.getenv`), so its
handler is unreachable. Total by construction: no store state makes it
raise. -/
def test_database (conn : DBConn) (env : Env) : TestResponse :=
  let response : TestResponse :=
    { backend := "✅ Running", database := "❌ Not Available",
      database_url := none, database_name := none,
      connection_status := "Not Connected", collections := [] }
  match conn with
  | .noDb => { response with database := "⚠️  Available but not initialized" }
  | .withDb listResult =>
      let response :=
        { response with
          database := "✅ Available"
          database_url := some (if envTruthy env.database_url then "✅ Set" else "❌ Not Set")
          database_name := some (if envTruthy env.database_name then "✅ Set" else "❌ Not Set") }
      match listResult with
      | .ok collections =>
          { response with
            collections := collections.take 10
            database := "✅ Connected & Working"
            connection_status := "Connected" }
      | .error e =>
          { response with database := "⚠️  Connected but Error: " ++ e.take 80 }

/-! ### Static endpoints (src/main.py lines 147-165) -/

/-- One document entry of the NOC payload. -/
structure NocDoc where
  name : String
  status : String
  ref : String
deriving Repr, DecidableEq

/-- The `/api/noc` payload shape. -/
structure NocPayload where
  title : String
  overview : String
  documents : List NocDoc
deriving Repr, DecidableEq

/-- The `/api/map` payload shape. -/
structure MapPayload where
  title : String
  map_image : String
  description : String
deriving Repr, DecidableEq

/-- The whole observable application state: auth store, content store,
store connection and environment. The static handlers receive it only to
express that they ignore it. -/
structure AppState where
  auth : Store
  content : ContentStore
  conn : DBConn
  env : Env

/-- Embedding of `get_noc_info` from src/main.py lines 147-157: a hardcoded literal,
no parameter and no store access (modelled by ignoring the state). -/
def get_noc_info (s : AppState) : NocPayload :=
  { title := "NOC & Licenses",
    overview := "Official No Objection Certificates and licensing details for Abdullah Housing.",
    documents :=
      [{ name := "Town Planning Approval", status := "Approved", ref := "TP-2024-0192" },
       { name := "Environmental Clearance", status := "Approved", ref := "ENV-2024-0045" },
       { name := "Water & Sewerage NOC", status := "In Progress", ref := "WS-2025-0109" }] }

/-- Embedding of `get_map_info` from src/main.py lines 159-165: a hardcoded literal,
no parameter and no store access (modelled by ignoring the state). -/
def get_map_info (s : AppState) : MapPayload :=
  { title := "Abdullah Housing Master Plan",
    map_image := "https://images.unsplash.com/photo-1502920917128-1aa500764cbd?q=80&w=1400&auto=format&fit=crop",
    description := "Zoomable high-level map of the entire society with sectors, roads and amenities." }

/-! ### Claims about the auth service -/

/-- C1: for every email `e` and store-assigned id `i`, a successful
register returns the token `sha256_hash (e ++ "|" ++ i)`, and a login on
the resulting store with the same credentials succeeds and returns the
identical token string (and the same public user). -/
theorem register_login_same_token (st : Store) (newId name email password : String)
    (hreg : findByEmail st.users email = none) :
    (register_user newId st name email password).1
        = .ok "Registered successfully" (sha256_hash (email ++ "|" ++ newId))
            ⟨newId, name, email⟩
      ∧ login_user (register_user newId st name email password).2 email password
        = .ok "Login successful" (sha256_hash (email ++ "|" ++ newId))
            ⟨newId, name, email⟩ := by
  unfold register_user
  rw [hreg]
  refine ⟨rfl, ?_⟩
  unfold login_user findByEmail
  unfold findByEmail at hreg
  simp only [List.find?_append, hreg, Option.none_or, List.find?_cons, List.find?_nil]
  simp

/-- Witness for C1 at a concrete run: registering `a@b.com` into an empty
store under the id of the spec's example, then logging in. -/
theorem register_login_same_token_witness :
    findByEmail [] "a@b.com" = none
  ∧ ((register_user "507f1f77bcf86cd799439011" ⟨[]⟩ "Ada" "a@b.com" "pw").1
        = .ok "Registered successfully"
            (sha256_hash ("a@b.com" ++ "|" ++ "507f1f77bcf86cd799439011"))
            ⟨"507f1f77bcf86cd799439011", "Ada", "a@b.com"⟩
      ∧ login_user
          (register_user "507f1f77bcf86cd799439011" ⟨[]⟩ "Ada" "a@b.com" "pw").2
          "a@b.com" "pw"
        = .ok "Login successful"
            (sha256_hash ("a@b.com" ++ "|" ++ "507f1f77bcf86cd799439011"))
            ⟨"507f1f77bcf86cd799439011", "Ada", "a@b.com"⟩) :=
  ⟨rfl, register_login_same_token ⟨[]⟩ "507f1f77bcf86cd799439011" "Ada" "a@b.com" "pw" rfl⟩

/-- C2: registering an email that already has a user record fails with
HTTP 400 "Email already registered", whatever the other field values and
the store-assigned id, and returns the store unchanged. -/
theorem register_duplicate_email (st : Store) (newId name email password : String)
    (u : UserDoc) (hdup : findByEmail st.users email = some u) :
    register_user newId st name email password
      = (.httpError 400 "Email already registered", st) := by
  unfold register_user
  rw [hdup]

/-- Witness for C2: re-registering `a@b.com` against a store already
holding it fails and leaves the store as it was. -/
theorem register_duplicate_email_witness :
    findByEmail [⟨"id0", "Bob", "a@b.com", sha256_hash "x", true⟩] "a@b.com"
        = some ⟨"id0", "Bob", "a@b.com", sha256_hash "x", true⟩
  ∧ register_user "id9" ⟨[⟨"id0", "Bob", "a@b.com", sha256_hash "x", true⟩]⟩
        "Eve" "a@b.com" "another-password"
      = (.httpError 400 "Email already registered",
         ⟨[⟨"id0", "Bob", "a@b.com", sha256_hash "x", true⟩]⟩) :=
  ⟨rfl, register_duplicate_email ⟨[⟨"id0", "Bob", "a@b.com", sha256_hash "x", true⟩]⟩
    "id9" "Eve" "a@b.com" "another-password"
    ⟨"id0", "Bob", "a@b.com", sha256_hash "x", true⟩ rfl⟩

/-- C3: a login whose email matches no user and a login whose password
hash mismatches the stored one produce the very same HTTP 401
"Invalid credentials" result; a login whose hash matches succeeds with
message, token and the user's id, name and email. -/
theorem login_unified_errors_and_success (st : Store) (email password : String) :
    (findByEmail st.users email = none →
      login_user st email password = .httpError 401 "Invalid credentials")
  ∧ (∀ u, findByEmail st.users email = some u →
      u.password_hash ≠ sha256_hash password →
      login_user st email password = .httpError 401 "Invalid credentials")
  ∧ (∀ u, findByEmail st.users email = some u →
      u.password_hash = sha256_hash password →
      login_user st email password
        = .ok "Login successful" (sha256_hash (email ++ "|" ++ u._id))
            ⟨u._id, u.name, u.email⟩) := by
  refine ⟨fun h => ?_, fun u hu hne => ?_, fun u hu he => ?_⟩
  · unfold login_user; rw [h]
  · unfold login_user; rw [hu]; exact if_pos hne
  · unfold login_user; rw [hu]; exact if_neg (fun hk => hk he)

/-- Witness for C3: a login against an empty store yields 401, and a login
with the matching password against a store holding the user succeeds. -/
theorem login_unified_errors_and_success_witness :
    (findByEmail [] "a@b.com" = none
      ∧ login_user ⟨[]⟩ "a@b.com" "pw" = .httpError 401 "Invalid credentials")
  ∧ login_user ⟨[⟨"id1", "Ada", "a@b.com", sha256_hash "pw", true⟩]⟩ "a@b.com" "pw"
      = .ok "Login successful" (sha256_hash ("a@b.com" ++ "|" ++ "id1"))
          ⟨"id1", "Ada", "a@b.com"⟩ :=
  ⟨⟨rfl, (login_unified_errors_and_success ⟨[]⟩ "a@b.com" "pw").1 rfl⟩,
   (login_unified_errors_and_success
       ⟨[⟨"id1", "Ada", "a@b.com", sha256_hash "pw", true⟩]⟩ "a@b.com" "pw").2.2
     ⟨"id1", "Ada", "a@b.com", sha256_hash "pw", true⟩ rfl rfl⟩

/-! ### Claims about the content service -/

/-- C4 counterexample: a Create Plot request whose status `"bogus"` lies
outside `available|booked|sold` passes boundary validation and the record
is persisted — the enumerated set is documentation only, not a
constraint. -/
theorem create_plot_status_not_validated :
    (post_plot 7 ⟨[], []⟩ ⟨"P-9", "5 Marla", none, some 100, some "bogus"⟩).1
        = .ok ("7", "Plot created")
  ∧ (post_plot 7 ⟨[], []⟩ ⟨"P-9", "5 Marla", none, some 100, some "bogus"⟩).2
        = ⟨[], [⟨7, "P-9", "5 Marla", none, some 100, "bogus"⟩]⟩
  ∧ ¬ ("bogus" ∈ (["available", "booked", "sold"] : List String)) :=
  ⟨rfl, rfl, by decide⟩

/-- C4 (amended): a Create Plot request with a negative price is rejected
at the boundary before the record is persisted (the store is returned
unchanged); the status fields of Create Plot and Create Project, however,
are not checked against their enumerated sets — any status string passes
validation and is persisted as given. -/
theorem boundary_validation_amended (newId : Nat) (st : ContentStore)
    (raw : PlotRaw) (praw : ProjectRaw) (pr : ℚ) (hp : raw.price = some pr) :
    (pr < 0 → post_plot newId st raw = (.error .priceLtZero, st))
  ∧ (0 ≤ pr → post_plot newId st raw
        = (.ok (toString newId, "Plot created"),
           { st with plots := st.plots ++
              [⟨newId, raw.plot_no, raw.size, raw.sector, some pr,
                raw.status.getD "available"⟩] }))
  ∧ validateProjectIn praw
      = .ok ⟨praw.title, praw.description, praw.status.getD "upcoming",
             praw.cover_image⟩ := by
  refine ⟨fun hneg => ?_, fun hpos => ?_, rfl⟩
  · unfold post_plot validatePlotIn
    rw [hp]
    simp only [if_pos hneg]
  · unfold post_plot validatePlotIn
    rw [hp]
    simp only [if_neg (not_lt.mpr hpos)]
    rfl

/-- Witness for C4 (amended): price `-3` is rejected with the store
unchanged. -/
theorem boundary_validation_amended_witness :
    ((⟨"P-1", "5 Marla", none, some (-3 : ℚ), none⟩ : PlotRaw).price = some (-3 : ℚ))
  ∧ post_plot 3 ⟨[], []⟩ ⟨"P-1", "5 Marla", none, some (-3 : ℚ), none⟩
      = (.error .priceLtZero, ⟨[], []⟩) :=
  ⟨rfl,
   (boundary_validation_amended 3 ⟨[], []⟩ ⟨"P-1", "5 Marla", none, some (-3 : ℚ), none⟩
      ⟨"T", none, none, none⟩ (-3) rfl).1 (by norm_num)⟩

/-- C7: a Create Plot request with a negative price fails boundary
validation; the handler is never reached and the store is returned
unchanged. -/
theorem negative_price_rejected_before_persist (newId : Nat) (st : ContentStore)
    (raw : PlotRaw) (pr : ℚ) (hp : raw.price = some pr) (hneg : pr < 0) :
    post_plot newId st raw = (.error .priceLtZero, st) := by
  unfold post_plot validatePlotIn
  rw [hp]
  simp only [if_pos hneg]

/-- Witness for C7 at the spec's example `price = -5`, over a non-empty
store that is left untouched. -/
theorem negative_price_rejected_before_persist_witness :
    ((⟨"P-2", "10 Marla", some "B", some (-5 : ℚ), some "available"⟩ : PlotRaw).price
        = some (-5 : ℚ))
  ∧ (-5 : ℚ) < 0
  ∧ post_plot 11 ⟨[], [⟨1, "P-0", "5 Marla", none, none, "sold"⟩]⟩
        ⟨"P-2", "10 Marla", some "B", some (-5 : ℚ), some "available"⟩
      = (.error .priceLtZero, ⟨[], [⟨1, "P-0", "5 Marla", none, none, "sold"⟩]⟩) :=
  ⟨rfl, by norm_num,
   negative_price_rejected_before_persist 11
     ⟨[], [⟨1, "P-0", "5 Marla", none, none, "sold"⟩]⟩
     ⟨"P-2", "10 Marla", some "B", some (-5 : ℚ), some "available"⟩
     (-5) rfl (by norm_num)⟩

/-- C5 counterexample: with the status filter value `""` (the empty
string), a record whose status is `"sold"` — not equal to `""` — is
returned, because Python's truthiness test drops the filter. -/
theorem list_plots_empty_filter_value_cex :
    (list_plots ⟨[], [⟨1, "P1", "5 Marla", none, none, "sold"⟩]⟩ 50 (some "")).map
        (fun p => p.status) = ["sold"]
  ∧ ("sold" : String) ≠ "" :=
  ⟨rfl, by decide⟩

/-- C5 (amended): for every non-empty status filter value `s`, listing
plots returns only records whose status equals `s`, at most `limit` of
them, each drawn from the store with its id rendered as a plain string;
the default limit is 50. (For the filter value `""` the filter is dropped
— see the empty-filter claim.) -/
theorem list_plots_filtered (st : ContentStore) (limit : Nat) (s : String)
    (hs : s ≠ "") :
    (∀ p ∈ list_plots st limit (some s), p.status = s)
  ∧ (list_plots st limit (some s)).length ≤ limit
  ∧ list_plots_default st (some s) = list_plots st 50 (some s)
  ∧ (∀ p ∈ list_plots st limit (some s),
      ∃ d ∈ st.plots, p = normPlot d ∧ p._id = toString d._id) := by
  have hfs : (if s = "" then (none : Option String) else some s) = some s := if_neg hs
  have key : ∀ p ∈ list_plots st limit (some s),
      ∃ d ∈ st.plots, p = normPlot d ∧ d.status = s := by
    intro p hp
    simp only [list_plots, hfs, get_documents, List.mem_map] at hp
    obtain ⟨d, hd, rfl⟩ := hp
    have hd' := List.mem_of_mem_take hd
    rw [List.mem_filter] at hd'
    exact ⟨d, hd'.1, rfl, by simpa using hd'.2⟩
  refine ⟨fun p hp => ?_, ?_, rfl, fun p hp => ?_⟩
  · obtain ⟨d, _, rfl, hds⟩ := key p hp
    simpa [normPlot] using hds
  · simp only [list_plots, hfs, get_documents, List.length_map, List.length_take]
    exact min_le_left _ _
  · obtain ⟨d, hd, rfl, _⟩ := key p hp
    exact ⟨d, hd, rfl, rfl⟩

/-- Witness for C5 (amended) at the filter `"sold"` over a two-plot
store. -/
theorem list_plots_filtered_witness :
    ("sold" : String) ≠ ""
  ∧ (list_plots ⟨[], [⟨1, "P1", "5 Marla", none, none, "sold"⟩,
        ⟨2, "P2", "10 Marla", none, none, "available"⟩]⟩ 50 (some "sold")).length ≤ 50 :=
  ⟨by decide,
   (list_plots_filtered ⟨[], [⟨1, "P1", "5 Marla", none, none, "sold"⟩,
      ⟨2, "P2", "10 Marla", none, none, "available"⟩]⟩ 50 "sold" (by decide)).2.1⟩

/-- C10: listing plots with `status = ""` is the same query as listing
with no status at all — the truthiness test `if status else` drops the
empty-string filter, so records of every status are returned. -/
theorem list_plots_empty_status_no_filter (st : ContentStore) (limit : Nat) :
    list_plots st limit (some "") = list_plots st limit none := rfl

/-! ### Claims about the diagnostic and static endpoints -/

/-- C8: `/test` is a total function of the store state — with `db` absent,
with `list_collection_names()` raising, and with it succeeding it returns
a normal response object, reporting an exception as descriptive prose in
the `database` field rather than propagating it. -/
theorem test_database_never_raises (env : Env) (msg : String) (cols : List String) :
    ((test_database .noDb env).backend = "✅ Running"
      ∧ (test_database .noDb env).database = "⚠️  Available but not initialized")
  ∧ ((test_database (.withDb (.error msg)) env).backend = "✅ Running"
      ∧ (test_database (.withDb (.error msg)) env).database
          = "⚠️  Connected but Error: " ++ msg.take 80
      ∧ (test_database (.withDb (.error msg)) env).connection_status = "Not Connected"
      ∧ (test_database (.withDb (.error msg)) env).collections = [])
  ∧ ((test_database (.withDb (.ok cols)) env).backend = "✅ Running"
      ∧ (test_database (.withDb (.ok cols)) env).database = "✅ Connected & Working"
      ∧ (test_database (.withDb (.ok cols)) env).connection_status = "Connected"
      ∧ (test_database (.withDb (.ok cols)) env).collections = cols.take 10) :=
  ⟨⟨rfl, rfl⟩, ⟨rfl, rfl, rfl, rfl⟩, ⟨rfl, rfl, rfl, rfl⟩⟩

/-- C9: `/api/noc` and `/api/map` return the same fixed payloads in every
application state — independent of auth records, content records, store
availability and environment — and those payloads are the hardcoded
literals of src/main.py lines 147-165. -/
theorem static_endpoints_constant (s₁ s₂ : AppState) :
    get_noc_info s₁ = get_noc_info s₂
  ∧ get_map_info s₁ = get_map_info s₂
  ∧ get_noc_info s₁ =
      { title := "NOC & Licenses",
        overview := "Official No Objection Certificates and licensing details for Abdullah Housing.",
        documents :=
          [{ name := "Town Planning Approval", status := "Approved", ref := "TP-2024-0192" },
           { name := "Environmental Clearance", status := "Approved", ref := "ENV-2024-0045" },
           { name := "Water & Sewerage NOC", status := "In Progress", ref := "WS-2025-0109" }] }
  ∧ get_map_info s₁ =
      { title := "Abdullah Housing Master Plan",
        map_image := "https://images.unsplash.com/photo-1502920917128-1aa500764cbd?q=80&w=1400&auto=format&fit=crop",
        description := "Zoomable high-level map of the entire society with sectors, roads and amenities." } :=
  ⟨rfl, rfl, rfl, rfl⟩

/-! ### Claims about the hashing utility -/

/-- Membership in the lowercase hexadecimal alphabet, stated by code
point: a decimal digit or one of the letters `a` through `f`. -/
def isHexChar (c : Char) : Bool :=
  (48 ≤ c.toNat && c.toNat ≤ 57) || (97 ≤ c.toNat && c.toNat ≤ 102)

theorem hexDigit_isHex (n : Nat) (hn : n < 16) : isHexChar (hexDigit n) = true := by
  interval_cases n <;> decide

theorem wordHex_length (w : Nat) : (wordHex w).length = 8 := by
  simp [wordHex]

theorem wordHex_all_hex (w : Nat) : (wordHex w).all isHexChar = true := by
  rw [List.all_eq_true]
  intro c hc
  rw [wordHex, List.mem_map] at hc
  obtain ⟨i, _, rfl⟩ := hc
  exact hexDigit_isHex _ (Nat.mod_lt _ (by decide))

/-- The field-wise bound that every reachable hash state satisfies: all
eight words are below `2^32`. -/
def H8Bounded (d : H8) : Prop :=
  d.h0 < w32 ∧ d.h1 < w32 ∧ d.h2 < w32 ∧ d.h3 < w32 ∧
  d.h4 < w32 ∧ d.h5 < w32 ∧ d.h6 < w32 ∧ d.h7 < w32

theorem add32_lt (a b : Nat) : add32 a b < w32 :=
  Nat.mod_lt _ (by decide)

theorem compress_bounded (hs : H8) (block : List Nat) :
    H8Bounded (compress hs block) :=
  ⟨add32_lt _ _, add32_lt _ _, add32_lt _ _, add32_lt _ _,
   add32_lt _ _, add32_lt _ _, add32_lt _ _, add32_lt _ _⟩

theorem foldl_compress_bounded (l : List (List Nat)) (d : H8) (hd : H8Bounded d) :
    H8Bounded (l.foldl compress d) := by
  induction l generalizing d with
  | nil => exact hd
  | cons b t ih =>
      rw [List.foldl_cons]
      exact ih _ (compress_bounded d b)

theorem sha256Digest_bounded (msg : List Nat) : H8Bounded (sha256Digest msg) :=
  foldl_compress_bounded _ _ (by unfold H8Bounded; decide)

/-- The digest of a string packaged as eight 32-bit words with their
bounds: `sha256_hash` factors through this map into a finite type. -/
def digestKey (s : String) :
    Fin w32 × Fin w32 × Fin w32 × Fin w32 × Fin w32 × Fin w32 × Fin w32 × Fin w32 :=
  let d := sha256Digest (utf8Encode s)
  let hb := sha256Digest_bounded (utf8Encode s)
  (⟨d.h0, hb.1⟩, ⟨d.h1, hb.2.1⟩, ⟨d.h2, hb.2.2.1⟩, ⟨d.h3, hb.2.2.2.1⟩,
   ⟨d.h4, hb.2.2.2.2.1⟩, ⟨d.h5, hb.2.2.2.2.2.1⟩, ⟨d.h6, hb.2.2.2.2.2.2.1⟩,
   ⟨d.h7, hb.2.2.2.2.2.2.2⟩)

theorem digestKey_eq_imp (s t : String) (h : digestKey s = digestKey t) :
    sha256_hash s = sha256_hash t := by
  have hd : sha256Digest (utf8Encode s) = sha256Digest (utf8Encode t) := by
    have h0 := congrArg (fun p => p.1.1) h
    have h1 := congrArg (fun p => p.2.1.1) h
    have h2 := congrArg (fun p => p.2.2.1.1) h
    have h3 := congrArg (fun p => p.2.2.2.1.1) h
    have h4 := congrArg (fun p => p.2.2.2.2.1.1) h
    have h5 := congrArg (fun p => p.2.2.2.2.2.1.1) h
    have h6 := congrArg (fun p => p.2.2.2.2.2.2.1.1) h
    have h7 := congrArg (fun p => p.2.2.2.2.2.2.2.1) h
    exact H8.ext h0 h1 h2 h3 h4 h5 h6 h7
  unfold sha256_hash
  rw [hd]

/-- C6 counterexample: `sha256_hash` maps the infinitely many strings into
the finite set of 256-bit digests, so the claimed universal
collision-freeness `hash(x) != hash(y)` for all `x != y` is false: some
two distinct strings share a digest. -/
theorem sha256_hash_not_injective :
    ¬ (∀ x y : String, x ≠ y → sha256_hash x ≠ sha256_hash y) := by
  intro hinj
  obtain ⟨x, y, hxy, heq⟩ := Finite.exists_ne_map_eq_of_infinite digestKey
  exact hinj x y hxy (digestKey_eq_imp x y heq)

/-- C6 (amended): `sha256_hash` is a pure deterministic function — equal
inputs give equal digests — and every digest is a 256-bit value rendered
as exactly 64 lowercase hexadecimal characters; distinct inputs are not
guaranteed distinct digests (collisions exist by counting, though none is
exhibited in practice). -/
theorem sha256_hash_deterministic_format (x : String) :
    sha256_hash x = sha256_hash x
  ∧ (sha256_hash x).length = 64
  ∧ (sha256_hash x).data.all isHexChar = true := by
  refine ⟨rfl, ?_, ?_⟩
  · show (sha256_hash x).data.length = 64
    simp [sha256_hash, digestHex, wordHex_length]
  · simp only [sha256_hash, digestHex]
    simp [List.all_append, wordHex_all_hex]

end AbdullahHousing
